import Mathlib

/-!
Shallow embedding of the iced widget/primitive core.

Numeric model: the source computes geometry with `f32`; every algorithm
verified here is a composition of field-arithmetic operations and order
comparisons, embedded exactly over `ℚ`. Opaque foreign types (fonts,
image/svg handles, mesh buffers, style-sheet trait objects) are embedded as
abstract handles: the code under verification only moves them around.
-/

namespace Iced

/-- A 2D point (`iced_core::Point`, fields `x`, `y`). -/
structure Point where
  x : ℚ
  y : ℚ
deriving DecidableEq, Repr

/-- A generic 2D vector (`iced_core::Vector<T>`, fields `x`, `y`). -/
structure Vec (α : Type) where
  x : α
  y : α
deriving DecidableEq, Repr

/-- A 2D size (`iced_core::Size`, fields `width`, `height`). -/
structure Size where
  width : ℚ
  height : ℚ
deriving DecidableEq, Repr

/-- An axis-aligned rectangle (`iced_core::Rectangle`). -/
structure Rectangle where
  x : ℚ
  y : ℚ
  width : ℚ
  height : ℚ
deriving DecidableEq, Repr

/-- The size of a rectangle. -/
def Rectangle.size (r : Rectangle) : Size :=
  ⟨r.width, r.height⟩

/-- Modelled from the spec: `Rectangle::contains` lives in `iced_core`,
which is not under `src/`; the spec fixes its semantics: "a cursor point
strictly inside B is contained; a point on/outside B's edge is not
(exclusive upper bound, inclusive lower bound — test all four edges)". -/
def Rectangle.contains (r : Rectangle) (p : Point) : Bool :=
  decide (r.x ≤ p.x) && decide (p.x < r.x + r.width) &&
  decide (r.y ≤ p.y) && decide (p.y < r.y + r.height)

/-- `inner` lies fully inside `outer` (used to state viewport clamping). -/
def Rectangle.within (inner outer : Rectangle) : Prop :=
  outer.x ≤ inner.x ∧ inner.x + inner.width ≤ outer.x + outer.width ∧
  outer.y ≤ inner.y ∧ inner.y + inner.height ≤ outer.y + outer.height

instance (inner outer : Rectangle) : Decidable (inner.within outer) := by
  unfold Rectangle.within; infer_instance

/-- An RGBA color (`iced_core::Color`). -/
structure Color where
  r : ℚ
  g : ℚ
  b : ℚ
  a : ℚ
deriving DecidableEq, Repr

/-- `Color::BLACK`. -/
def Color.black : Color := ⟨0, 0, 0, 1⟩

/-- A font handle. `iced_core::Font` is not under `src/`; the code under
verification only stores and forwards fonts, so it is embedded as an
abstract handle. -/
abbrev Font := Nat

/-- Modelled from the spec: `Length` lives in `iced_core`, not under
`src/`; the spec fixes it as "a sum type {Fill, FillPortion(weight),
Shrink, Fixed(units)}" (the source spells the fixed variant
`Length::Units`). -/
inductive Length where
  | fill
  | fillPortion (weight : Nat)
  | shrink
  | units (n : Nat)
deriving DecidableEq, Repr

/-- Mouse buttons (`iced_core::mouse::Button`). -/
inductive MouseButton where
  | left
  | right
  | middle
  | other (code : Nat)
deriving DecidableEq, Repr

/-- Modelled from the spec: the event type lives in `iced_native`, not
under `src/`; the spec fixes it as "a tagged union over {pointer motion,
pointer button press/release, touch begin/move/end, keyboard input,
window resize}". Mouse sub-events. -/
inductive MouseEvent where
  | buttonPressed (button : MouseButton)
  | buttonReleased (button : MouseButton)
  | cursorMoved (position : Point)
  | wheelScrolled (dx dy : ℚ)
deriving DecidableEq, Repr

/-- Touch sub-events (`iced_core::touch::Event`); the widgets match on
`FingerPressed { .. }`. -/
inductive TouchEvent where
  | fingerPressed (id : Nat) (position : Point)
  | fingerMoved (id : Nat) (position : Point)
  | fingerLifted (id : Nat) (position : Point)
  | fingerLost (id : Nat) (position : Point)
deriving DecidableEq, Repr

/-- Keyboard sub-events, abstract (never inspected by the verified code). -/
inductive KeyboardEvent where
  | keyPressed (code : Nat)
  | keyReleased (code : Nat)
  | characterReceived (c : Char)
deriving DecidableEq, Repr

/-- Window sub-events, abstract (never inspected by the verified code). -/
inductive WindowEvent where
  | resized (width height : Nat)
deriving DecidableEq, Repr

/-- A user interface event (`iced_native::event::Event`). -/
inductive Event where
  | mouse (e : MouseEvent)
  | touch (e : TouchEvent)
  | keyboard (e : KeyboardEvent)
  | window (e : WindowEvent)
deriving DecidableEq, Repr

/-- The result of event processing (`iced_native::event::Status`). -/
inductive Status where
  | ignored
  | captured
deriving DecidableEq, Repr

/-- A left-button mouse press, the pattern both widgets recognize. -/
def leftPress : Event :=
  Event.mouse (MouseEvent.buttonPressed MouseButton.left)

/-! ## Radio (src/native/src/widget/radio.rs) -/

/-- The `Radio` widget state. The `style` field is a reference to a
`StyleSheet` trait object, embedded as an abstract handle (it is only read
by `draw`). -/
structure Radio (M : Type) where
  is_selected : Bool
  on_click : M
  label : String
  width : Length
  size : Nat
  spacing : Nat
  text_size : Option Nat
  text_color : Option Color
  font : Font
  style : Nat

/-- `Radio::new` (radio.rs:69-91): binds the callback once at construction
(`on_click: f(value)`); `is_selected: Some(value) == selected`. -/
def Radio.new {M V : Type} [DecidableEq V] (value : V) (label : String)
    (selected : Option V) (f : V → M) : Radio M :=
  { is_selected := decide (some value = selected)
    on_click := f value
    label := label
    width := Length.shrink
    size := 28
    spacing := 15
    text_size := none
    text_color := none
    font := 0
    style := 0 }

/-- `Radio::on_event` (radio.rs:173-195). The Rust method receives
`&mut self` and mutates only the `messages` vector; the embedding passes
widget state and message queue explicitly and returns their new values
alongside the status. -/
def Radio.on_event {M : Type} (self : Radio M) (event : Event)
    (layoutBounds : Rectangle) (cursor_position : Point)
    (messages : List M) : Radio M × List M × Status :=
  match event with
  | Event.mouse (MouseEvent.buttonPressed MouseButton.left)
  | Event.touch (TouchEvent.fingerPressed _ _) =>
    if layoutBounds.contains cursor_position then
      (self, messages ++ [self.on_click], Status.captured)
    else
      (self, messages, Status.ignored)
  | _ => (self, messages, Status.ignored)

/-! ## Toggler (src/native/src/widget/toggler.rs) -/

/-- Horizontal text alignment (`iced_core::alignment::Horizontal`). -/
inductive Horizontal where
  | left
  | center
  | right
deriving DecidableEq, Repr

/-- Vertical text alignment (`iced_core::alignment::Vertical`). -/
inductive Vertical where
  | top
  | center
  | bottom
deriving DecidableEq, Repr

/-- The `Toggler` widget state; `on_toggle` is the boxed callback,
`style` an abstract handle for the style-sheet trait object. -/
structure Toggler (M : Type) where
  is_active : Bool
  on_toggle : Bool → M
  label : Option String
  width : Length
  size : Option Nat
  text_size : Option Nat
  text_alignment : Horizontal
  spacing : Nat
  font : Font
  style : Nat

/-- `Toggler::new` (toggler.rs:54-74). -/
def Toggler.new {M : Type} (is_active : Bool) (label : Option String)
    (f : Bool → M) : Toggler M :=
  { is_active := is_active
    on_toggle := f
    label := label
    width := Length.fill
    size := none
    text_size := none
    text_alignment := Horizontal.left
    spacing := 0
    font := 0
    style := 0 }

/-- `Toggler::on_event` (toggler.rs:160-183): only a left mouse press is
matched; the message pushed is `on_toggle(!is_active)`. -/
def Toggler.on_event {M : Type} (self : Toggler M) (event : Event)
    (layoutBounds : Rectangle) (cursor_position : Point)
    (messages : List M) : Toggler M × List M × Status :=
  match event with
  | Event.mouse (MouseEvent.buttonPressed MouseButton.left) =>
    let mouse_over := layoutBounds.contains cursor_position
    if mouse_over then
      (self, messages ++ [self.on_toggle (!self.is_active)], Status.captured)
    else
      (self, messages, Status.ignored)
  | _ => (self, messages, Status.ignored)

/-! ## Text (src/native/src/widget/text.rs) -/

/-- The `Text` widget state (text.rs:28-37). -/
structure Text where
  content : String
  size : Option Nat
  color : Option Color
  font : Font
  width : Length
  height : Length
  horizontal_alignment : Horizontal
  vertical_alignment : Vertical
deriving DecidableEq, Repr

/-- `Text::new` (text.rs:41-52). -/
def Text.new (label : String) : Text :=
  { content := label
    size := none
    color := none
    font := 0
    width := Length.shrink
    height := Length.shrink
    horizontal_alignment := Horizontal.left
    vertical_alignment := Vertical.top }

/-- One datum fed to the structural hasher. The Rust `Hasher` consumes a
stream of field values; the embedding records that stream, so two widgets
hash identically exactly when they feed the hasher identical streams. -/
inductive HashData where
  | marker (typeId : Nat)
  | str (s : String)
  | optNat (n : Option Nat)
  | optStr (s : Option String)
  | len (l : Length)
deriving DecidableEq, Repr

/-- `Text::hash_layout` (text.rs:153-161): feeds the marker type id, then
`content`, `size`, `width` and `height` — and nothing else — to the
hasher. -/
def Text.hash_layout (self : Text) (state : List HashData) : List HashData :=
  state ++ [HashData.marker 0, HashData.str self.content,
    HashData.optNat self.size, HashData.len self.width,
    HashData.len self.height]

/-- Modelled from the spec: `layout::Limits` lives in `iced_native`, not
under `src/`; the spec fixes it as "an interval [min, max] per axis offered
to a widget during layout; narrowed by padding/fixed sizing before being
passed to children", with unresolvable constraints degrading to the
minimum (never an error). -/
structure Limits where
  min : Size
  max : Size
deriving DecidableEq, Repr

/-- Build limits from a minimum and maximum size. -/
def Limits.new (lmin lmax : Size) : Limits := ⟨lmin, lmax⟩

/-- Narrow the horizontal interval by a width policy: a fixed `units` size
clamps both ends to that size (within the interval); the elastic policies
leave the interval unchanged. -/
def Limits.widthLimit (l : Limits) (w : Length) : Limits :=
  match w with
  | Length.units u =>
    let nw := Max.max (Min.min (u : ℚ) l.max.width) l.min.width
    ⟨⟨nw, l.min.height⟩, ⟨nw, l.max.height⟩⟩
  | _ => l

/-- Narrow the vertical interval by a height policy. -/
def Limits.heightLimit (l : Limits) (h : Length) : Limits :=
  match h with
  | Length.units u =>
    let nh := Max.max (Min.min (u : ℚ) l.max.height) l.min.height
    ⟨⟨l.min.width, nh⟩, ⟨l.max.width, nh⟩⟩
  | _ => l

/-- Clamp an intrinsic size into the interval (degrading to the minimum). -/
def Limits.resolve (l : Limits) (intrinsic : Size) : Size :=
  ⟨Max.max (Min.min intrinsic.width l.max.width) l.min.width,
   Max.max (Min.min intrinsic.height l.max.height) l.min.height⟩

/-- Narrow the maximum by padding on all four sides, clamped at zero. -/
def Limits.pad (l : Limits) (p : ℚ) : Limits :=
  ⟨⟨Max.max (l.min.width - p * 2) 0, Max.max (l.min.height - p * 2) 0⟩,
   ⟨Max.max (l.max.width - p * 2) 0, Max.max (l.max.height - p * 2) 0⟩⟩

/-- Modelled from the spec: `layout::Node` lives in `iced_native`, not
under `src/`; the spec fixes it as a positioned layout result that "owns
its own bounds (position + size, position relative to parent) and an
ordered sequence of child Nodes". -/
inductive Node where
  | mk (bounds : Rectangle) (children : List Node)

/-- The bounds of a layout node. -/
def Node.bounds : Node → Rectangle
  | Node.mk b _ => b

/-- `Node::new(size)`: a childless node of the given size at the origin. -/
def Node.new (size : Size) : Node :=
  Node.mk ⟨0, 0, size.width, size.height⟩ []

/-- `Text::layout` (text.rs:114-131): narrow the limits by the width and
height policies, measure the content with the effective size and the
widget's font against the maximal bounds, and resolve the measured size
within the limits. The renderer's text measurement capability is passed in
as `measure`; `defaultSize` is `renderer.default_size()`. -/
def Text.layout (self : Text) (defaultSize : Nat)
    (measure : String → Nat → Font → Size → ℚ × ℚ)
    (limits : Limits) : Node :=
  let limits := (limits.widthLimit self.width).heightLimit self.height
  let size := self.size.getD defaultSize
  let bounds := limits.max
  let wh := measure self.content size self.font bounds
  let resolved := limits.resolve ⟨wh.1, wh.2⟩
  Node.new resolved

/-! ## Tooltip (src/native/src/widget/tooltip.rs) -/

/-- The tooltip position (tooltip.rs:89-100). -/
inductive Position where
  | followCursor
  | top
  | bottom
  | left
  | right
deriving DecidableEq, Repr

/-- Default text styling (`renderer::Text`, renderer.rs:55-58). -/
structure TextDefaults where
  color : Color
deriving DecidableEq, Repr

/-- Default styling attributes (`renderer::Defaults`, renderer.rs:40-43). -/
structure Defaults where
  text : TextDefaults
deriving DecidableEq, Repr

/-- The container style produced by the tooltip's style sheet.
`container::Style` lives outside `src/`; `Tooltip::draw` reads only its
`text_color`, so the embedding keeps exactly that field. -/
structure ContainerStyle where
  text_color : Option Color
deriving DecidableEq, Repr

/-- The unclamped overlay rectangle (tooltip.rs:176-210): center against
the owning widget's bounds, offset per the requested position, then grow
by the padding on every side. -/
def tooltipRawBounds (position : Position) (bounds text_bounds : Rectangle)
    (cursor_position : Point) (gap padding : ℚ) : Rectangle :=
  let x_center := bounds.x + (bounds.width - text_bounds.width) / 2
  let y_center := bounds.y + (bounds.height - text_bounds.height) / 2
  let offset : Vec ℚ :=
    match position with
    | Position.top =>
      ⟨x_center, bounds.y - text_bounds.height - gap - padding⟩
    | Position.bottom =>
      ⟨x_center, bounds.y + bounds.height + gap + padding⟩
    | Position.left =>
      ⟨bounds.x - text_bounds.width - gap - padding, y_center⟩
    | Position.right =>
      ⟨bounds.x + bounds.width + gap + padding, y_center⟩
    | Position.followCursor =>
      ⟨cursor_position.x, cursor_position.y - text_bounds.height⟩
  ⟨offset.x - padding, offset.y - padding,
   text_bounds.width + padding * 2, text_bounds.height + padding * 2⟩

/-- The viewport clamp (tooltip.rs:212-228): on each axis, if the leading
edge overflows, snap it to the viewport's leading edge; otherwise, if the
trailing edge overflows, shift to align the trailing edges; the size is
never changed. -/
def clampToViewport (tb viewport : Rectangle) : Rectangle :=
  let tb1 :=
    if tb.x < viewport.x then { tb with x := viewport.x }
    else if viewport.x + viewport.width < tb.x + tb.width then
      { tb with x := viewport.x + viewport.width - tb.width }
    else tb
  if tb1.y < viewport.y then { tb1 with y := viewport.y }
  else if viewport.y + viewport.height < tb1.y + tb1.height then
    { tb1 with y := viewport.y + viewport.height - tb1.height }
  else tb1

/-- The final overlay bounds of `Tooltip::draw` (tooltip.rs:180-228). -/
def tooltipBounds (position : Position) (bounds text_bounds : Rectangle)
    (cursor_position : Point) (gap padding : ℚ)
    (viewport : Rectangle) : Rectangle :=
  clampToViewport
    (tooltipRawBounds position bounds text_bounds cursor_position gap padding)
    viewport

/-- The `Tooltip` widget state (tooltip.rs:18-25). The `content` element
is abstract (its drawing is recorded as one `contentDraw` operation); the
style-sheet trait object is embedded as the style it produces. -/
structure Tooltip where
  tooltip : Text
  position : Position
  style : ContainerStyle
  gap : Nat
  padding : Nat
deriving DecidableEq, Repr

/-- The overlay bounds `Tooltip::draw` computes: the tooltip text is laid
out against the viewport's padded limits (tooltip.rs:167-172), then
positioned and clamped (tooltip.rs:176-228). -/
def Tooltip.overlayBounds (self : Tooltip) (layoutBounds : Rectangle)
    (cursor_position : Point) (viewport : Rectangle) (defaultSize : Nat)
    (measure : String → Nat → Font → Size → ℚ × ℚ) : Rectangle :=
  let text_layout := self.tooltip.layout defaultSize measure
    ((Limits.new ⟨0, 0⟩ viewport.size).pad (self.padding : ℚ))
  tooltipBounds self.position layoutBounds text_layout.bounds cursor_position
    (self.gap : ℚ) (self.padding : ℚ) viewport

/-- One renderer call recorded during `Tooltip::draw`. -/
inductive RenderOp where
  | beginLayer (bounds : Rectangle)
  | endLayer
  | textDraw (defaultColor : Color) (bounds : Rectangle) (content : String)
      (size : Nat) (font : Font) (color : Option Color)
      (ha : Horizontal) (va : Vertical)
  | contentDraw (defaultColor : Color)
deriving DecidableEq, Repr

/-- `Tooltip::draw` (tooltip.rs:138-255), as the sequence of renderer
calls it makes: when the content bounds contain the cursor it opens a
layer, draws the tooltip text with the style sheet's text color overriding
the default (tooltip.rs:161-165), closes the layer, and then draws the
base content with the original defaults; otherwise it only draws the base
content. -/
def Tooltip.draw (self : Tooltip) (defaults : Defaults)
    (layoutBounds : Rectangle) (cursor_position : Point)
    (viewport : Rectangle) (defaultSize : Nat)
    (measure : String → Nat → Font → Size → ℚ × ℚ) : List RenderOp :=
  let bounds := layoutBounds
  if bounds.contains cursor_position then
    let newDefaults : Defaults :=
      ⟨⟨self.style.text_color.getD defaults.text.color⟩⟩
    let text_layout := self.tooltip.layout defaultSize measure
      ((Limits.new ⟨0, 0⟩ viewport.size).pad (self.padding : ℚ))
    let padding : ℚ := self.padding
    let text_bounds := text_layout.bounds
    let tb := self.overlayBounds layoutBounds cursor_position viewport
      defaultSize measure
    [RenderOp.beginLayer viewport,
     RenderOp.textDraw newDefaults.text.color
       ⟨tb.x + padding, tb.y + padding, text_bounds.width, text_bounds.height⟩
       self.tooltip.content (self.tooltip.size.getD defaultSize)
       self.tooltip.font self.tooltip.color
       self.tooltip.horizontal_alignment self.tooltip.vertical_alignment,
     RenderOp.endLayer,
     RenderOp.contentDraw defaults.text.color]
  else
    [RenderOp.contentDraw defaults.text.color]

/-! ## Tooltip theorems -/

/-- Clamping never resizes. -/
theorem clampToViewport_size (tb vp : Rectangle) :
    (clampToViewport tb vp).width = tb.width ∧
    (clampToViewport tb vp).height = tb.height := by
  unfold clampToViewport
  dsimp only
  split_ifs <;> exact ⟨rfl, rfl⟩

/-- If the rectangle fits in the viewport on both axes, the clamped
rectangle lies fully inside the viewport. -/
theorem clampToViewport_within (tb vp : Rectangle)
    (hw : tb.width ≤ vp.width) (hh : tb.height ≤ vp.height) :
    (clampToViewport tb vp).within vp := by
  unfold clampToViewport Rectangle.within
  dsimp only
  split_ifs <;> refine ⟨?_, ?_, ?_, ?_⟩ <;> simp_all <;> linarith

/-- If the top edge overflows, clamping snaps it to the viewport's top. -/
theorem clampToViewport_top (tb vp : Rectangle) (h : tb.y < vp.y) :
    (clampToViewport tb vp).y = vp.y := by
  unfold clampToViewport
  dsimp only
  split_ifs <;> simp_all

/-- C4 counterexample: with padding 5 and an 8×8 viewport the padded
tooltip is 10×10 and cannot fit, so after clamping the final bounds still
overflow the viewport — the claim's unconditional "clamped to lie fully
inside the provided viewport" is false. The cursor is inside the content
bounds, so the overlay really is drawn at these bounds. -/
theorem tooltip_bounds_overflow_cex :
    Rectangle.contains ⟨0, 0, 4, 4⟩ ⟨1, 1⟩ = true ∧
    ¬ Rectangle.within
      (Tooltip.overlayBounds ⟨Text.new "tip", Position.top, ⟨none⟩, 0, 5⟩
        ⟨0, 0, 4, 4⟩ ⟨1, 1⟩ ⟨0, 0, 8, 8⟩ 16 (fun _ _ _ _ => (100, 10)))
      ⟨0, 0, 8, 8⟩ := by
  constructor
  · norm_num [Rectangle.contains]
  · norm_num [Tooltip.overlayBounds, Text.layout, Text.new, Limits.new,
      Limits.pad, Limits.widthLimit, Limits.heightLimit, Limits.resolve,
      Node.new, Node.bounds, Rectangle.size, tooltipBounds, tooltipRawBounds,
      clampToViewport, Rectangle.within]

/-- C4 (amended): the overlay bounds are the centered/offset rectangle
clamped by shifting only — the final size always equals the padded text
size — and, provided the padded tooltip is no larger than the viewport on
each axis, the final bounds lie fully inside the viewport; unconditionally,
a Top placement that would rise above the viewport's top edge is clamped
to `tooltip.y = viewport.y`. -/
theorem tooltip_bounds_clamped (position : Position)
    (bounds text_bounds : Rectangle) (cursor : Point) (gap padding : ℚ)
    (viewport : Rectangle) :
    (tooltipBounds position bounds text_bounds cursor gap padding
        viewport).width = text_bounds.width + padding * 2 ∧
    (tooltipBounds position bounds text_bounds cursor gap padding
        viewport).height = text_bounds.height + padding * 2 ∧
    (text_bounds.width + padding * 2 ≤ viewport.width →
      text_bounds.height + padding * 2 ≤ viewport.height →
      (tooltipBounds position bounds text_bounds cursor gap padding
        viewport).within viewport) ∧
    (position = Position.top →
      bounds.y - text_bounds.height - gap - padding - padding < viewport.y →
      (tooltipBounds position bounds text_bounds cursor gap padding
          viewport).y = viewport.y) := by
  have hsz := clampToViewport_size
    (tooltipRawBounds position bounds text_bounds cursor gap padding) viewport
  have hraww : (tooltipRawBounds position bounds text_bounds cursor gap
      padding).width = text_bounds.width + padding * 2 := by
    cases position <;> rfl
  have hrawh : (tooltipRawBounds position bounds text_bounds cursor gap
      padding).height = text_bounds.height + padding * 2 := by
    cases position <;> rfl
  refine ⟨?_, ?_, ?_, ?_⟩
  · rw [tooltipBounds, hsz.1, hraww]
  · rw [tooltipBounds, hsz.2, hrawh]
  · intro hw hh
    rw [tooltipBounds]
    exact clampToViewport_within _ _ (by rw [hraww]; exact hw)
      (by rw [hrawh]; exact hh)
  · intro hp hy
    subst hp
    rw [tooltipBounds]
    apply clampToViewport_top
    have hry : (tooltipRawBounds Position.top bounds text_bounds cursor gap
        padding).y = bounds.y - text_bounds.height - gap - padding - padding :=
      rfl
    rw [hry]
    exact hy

/-- Witness for C4 (amended) at a concrete input: a Top placement rising
above the viewport's top edge, with the tooltip fitting the viewport, so
every implication of the theorem is discharged. -/
theorem tooltip_bounds_clamped_witness :
    (tooltipBounds Position.top ⟨0, 0, 28, 28⟩ ⟨0, 0, 40, 20⟩ ⟨3, 3⟩ 0 5
      ⟨0, 0, 800, 600⟩).width = 40 + 5 * 2 ∧
    (tooltipBounds Position.top ⟨0, 0, 28, 28⟩ ⟨0, 0, 40, 20⟩ ⟨3, 3⟩ 0 5
      ⟨0, 0, 800, 600⟩).height = 20 + 5 * 2 ∧
    (tooltipBounds Position.top ⟨0, 0, 28, 28⟩ ⟨0, 0, 40, 20⟩ ⟨3, 3⟩ 0 5
      ⟨0, 0, 800, 600⟩).within ⟨0, 0, 800, 600⟩ ∧
    (tooltipBounds Position.top ⟨0, 0, 28, 28⟩ ⟨0, 0, 40, 20⟩ ⟨3, 3⟩ 0 5
      ⟨0, 0, 800, 600⟩).y = 0 :=
  ⟨(tooltip_bounds_clamped Position.top ⟨0, 0, 28, 28⟩ ⟨0, 0, 40, 20⟩ ⟨3, 3⟩
      0 5 ⟨0, 0, 800, 600⟩).1,
    (tooltip_bounds_clamped Position.top ⟨0, 0, 28, 28⟩ ⟨0, 0, 40, 20⟩ ⟨3, 3⟩
      0 5 ⟨0, 0, 800, 600⟩).2.1,
    (tooltip_bounds_clamped Position.top ⟨0, 0, 28, 28⟩ ⟨0, 0, 40, 20⟩ ⟨3, 3⟩
      0 5 ⟨0, 0, 800, 600⟩).2.2.1 (by norm_num) (by norm_num),
    (tooltip_bounds_clamped Position.top ⟨0, 0, 28, 28⟩ ⟨0, 0, 40, 20⟩ ⟨3, 3⟩
      0 5 ⟨0, 0, 800, 600⟩).2.2.2 rfl (by norm_num)⟩

/-- C8: `Tooltip::draw` brackets the overlay in exactly one
`begin_layer`/`end_layer` pair precisely when the content bounds contain
the cursor, the overlay text is drawn with the style sheet's text color
overriding the default, and in both cases the base content is drawn
exactly once, with the original defaults. -/
theorem tooltip_draw_layer_bracket (self : Tooltip) (defaults : Defaults)
    (lb : Rectangle) (cursor : Point) (vp : Rectangle) (ds : Nat)
    (measure : String → Nat → Font → Size → ℚ × ℚ) :
    (lb.contains cursor = true →
      ∃ b : Rectangle,
        self.draw defaults lb cursor vp ds measure =
          [RenderOp.beginLayer vp,
           RenderOp.textDraw (self.style.text_color.getD defaults.text.color)
             b self.tooltip.content (self.tooltip.size.getD ds)
             self.tooltip.font self.tooltip.color
             self.tooltip.horizontal_alignment self.tooltip.vertical_alignment,
           RenderOp.endLayer,
           RenderOp.contentDraw defaults.text.color]) ∧
    (lb.contains cursor = false →
      self.draw defaults lb cursor vp ds measure =
        [RenderOp.contentDraw defaults.text.color]) ∧
    (self.draw defaults lb cursor vp ds measure).countP
      (fun op => match op with
        | RenderOp.contentDraw _ => true
        | _ => false) = 1 := by
  cases h : lb.contains cursor with
  | true =>
    refine ⟨fun _ => ?_, fun hc => by simp [h] at hc, ?_⟩
    · refine ⟨⟨(self.overlayBounds lb cursor vp ds measure).x + (self.padding : ℚ),
        (self.overlayBounds lb cursor vp ds measure).y + (self.padding : ℚ),
        ((self.tooltip.layout ds measure
          ((Limits.new ⟨0, 0⟩ vp.size).pad (self.padding : ℚ))).bounds).width,
        ((self.tooltip.layout ds measure
          ((Limits.new ⟨0, 0⟩ vp.size).pad (self.padding : ℚ))).bounds).height⟩,
        ?_⟩
      simp [Tooltip.draw, h]
    · simp [Tooltip.draw, h, List.countP, List.countP.go]
  | false =>
    refine ⟨fun hc => by simp [h] at hc, fun _ => ?_, ?_⟩
    · simp [Tooltip.draw, h]
    · simp [Tooltip.draw, h, List.countP, List.countP.go]

/-- Witness for C8 at a concrete input, with the cursor inside the
content bounds. -/
theorem tooltip_draw_layer_bracket_witness :
    ∃ b : Rectangle,
      Tooltip.draw ⟨Text.new "tip", Position.top, ⟨none⟩, 0, 5⟩
          ⟨⟨Color.black⟩⟩ ⟨0, 0, 20, 20⟩ ⟨5, 5⟩ ⟨0, 0, 800, 600⟩ 16
          (fun _ _ _ _ => (40, 20)) =
        [RenderOp.beginLayer ⟨0, 0, 800, 600⟩,
         RenderOp.textDraw Color.black b "tip" 16 0 none
           Horizontal.left Vertical.top,
         RenderOp.endLayer,
         RenderOp.contentDraw Color.black] :=
  (tooltip_draw_layer_bracket ⟨Text.new "tip", Position.top, ⟨none⟩, 0, 5⟩
      ⟨⟨Color.black⟩⟩ ⟨0, 0, 20, 20⟩ ⟨5, 5⟩ ⟨0, 0, 800, 600⟩ 16
      (fun _ _ _ _ => (40, 20))).1
    (by norm_num [Rectangle.contains])

/-! ## Radio / Toggler dispatch theorems -/

/-- `Radio::on_event` either appends exactly its `on_click` message and
captures, or leaves everything untouched and ignores. -/
theorem radio_on_event_shape {M : Type} (r : Radio M) (e : Event)
    (b : Rectangle) (c : Point) (msgs : List M) :
    r.on_event e b c msgs = (r, msgs ++ [r.on_click], Status.captured) ∨
    r.on_event e b c msgs = (r, msgs, Status.ignored) := by
  rcases e with me | te | ke | we
  · rcases me with btn | btn | pos | ⟨dx, dy⟩
    · rcases btn with _ | _ | _ | code
      · by_cases h : b.contains c <;> simp [Radio.on_event, h]
      all_goals simp [Radio.on_event]
    all_goals simp [Radio.on_event]
  · rcases te with ⟨i, p⟩ | ⟨i, p⟩ | ⟨i, p⟩ | ⟨i, p⟩
    · by_cases h : b.contains c <;> simp [Radio.on_event, h]
    all_goals simp [Radio.on_event]
  · simp [Radio.on_event]
  · simp [Radio.on_event]

/-- `Toggler::on_event` either appends exactly one toggled message and
captures, or leaves everything untouched and ignores. -/
theorem toggler_on_event_shape {M : Type} (t : Toggler M) (e : Event)
    (b : Rectangle) (c : Point) (msgs : List M) :
    t.on_event e b c msgs =
      (t, msgs ++ [t.on_toggle (!t.is_active)], Status.captured) ∨
    t.on_event e b c msgs = (t, msgs, Status.ignored) := by
  rcases e with me | te | ke | we
  · rcases me with btn | btn | pos | ⟨dx, dy⟩
    · rcases btn with _ | _ | _ | code
      · by_cases h : b.contains c <;> simp [Toggler.on_event, h]
      all_goals simp [Toggler.on_event]
    all_goals simp [Toggler.on_event]
  · simp [Toggler.on_event]
  · simp [Toggler.on_event]
  · simp [Toggler.on_event]

/-- C6 (code bug in the source): `Text::hash_layout` feeds only content,
size, width and height to the hasher. Two Text widgets differing only in
color hash identically (the claim's true half), but two widgets differing
only in font also hash identically even though `Text::layout` passes the
font to the renderer's measurement, so their computed layouts differ —
the font affects layout yet does not contribute to the hash. -/
theorem text_hash_layout_omits_font :
    (Text.new "hi").hash_layout [] =
      { Text.new "hi" with font := 1 }.hash_layout [] ∧
    (Text.new "hi").hash_layout [] =
      { Text.new "hi" with color := some ⟨1, 0, 0, 1⟩ }.hash_layout [] ∧
    ((Text.new "hi").layout 16 (fun _ _ f _ => ((f : ℚ) + 10, 10))
        ⟨⟨0, 0⟩, ⟨1000, 1000⟩⟩).bounds ≠
      ({ Text.new "hi" with font := 1 }.layout 16
          (fun _ _ f _ => ((f : ℚ) + 10, 10))
        ⟨⟨0, 0⟩, ⟨1000, 1000⟩⟩).bounds := by
  refine ⟨rfl, rfl, ?_⟩
  norm_num [Text.layout, Text.new, Limits.widthLimit, Limits.heightLimit,
    Limits.resolve, Node.new, Node.bounds, Rectangle.mk.injEq]

/-- C3: for every Radio with layout bounds (0,0,28,28) and an empty message
queue, a left-button press at (10,10) appends exactly one message — the
pre-bound `on_click` value — and returns Captured, while the same press at
(50,50) returns Ignored and leaves the queue empty. -/
theorem radio_press_hit_and_miss (M : Type) (r : Radio M) :
    r.on_event leftPress ⟨0, 0, 28, 28⟩ ⟨10, 10⟩ [] =
      (r, [r.on_click], Status.captured) ∧
    r.on_event leftPress ⟨0, 0, 28, 28⟩ ⟨50, 50⟩ [] =
      (r, [], Status.ignored) := by
  have h1 : Rectangle.contains ⟨0, 0, 28, 28⟩ ⟨10, 10⟩ = true := by
    norm_num [Rectangle.contains]
  have h2 : Rectangle.contains ⟨0, 0, 28, 28⟩ ⟨50, 50⟩ = false := by
    norm_num [Rectangle.contains]
  exact ⟨by simp [Radio.on_event, leftPress, h1], by simp [Radio.on_event, leftPress, h2]⟩

/-- C5 counterexample: a touch finger press with the cursor inside the
layout bounds is Ignored by `Toggler::on_event` and appends no message —
refuting the claim that a touch press inside the bounds is recognized. -/
theorem toggler_touch_press_ignored :
    ((Toggler.new true (some "t") (fun s => s)).on_event
        (Event.touch (TouchEvent.fingerPressed 0 ⟨10, 10⟩))
        ⟨0, 0, 100, 100⟩ ⟨10, 10⟩ []).2 =
      ([], Status.ignored) := rfl

/-- C5 (amended): `Toggler::on_event` recognizes a click exactly when the
event is a left-button mouse press and the layout bounds contain the
cursor (touch presses are not matched); on recognition it appends exactly
one message and returns Captured, otherwise it returns Ignored and appends
nothing. -/
theorem toggler_click_recognition (M : Type) (t : Toggler M) (e : Event)
    (b : Rectangle) (c : Point) (msgs : List M) :
    t.on_event e b c msgs =
      if e = leftPress ∧ b.contains c then
        (t, msgs ++ [t.on_toggle (!t.is_active)], Status.captured)
      else (t, msgs, Status.ignored) := by
  rcases e with me | te | ke | we
  · rcases me with btn | btn | pos | ⟨dx, dy⟩
    · rcases btn with _ | _ | _ | code
      · by_cases h : b.contains c <;> simp [Toggler.on_event, leftPress, h]
      all_goals simp [Toggler.on_event, leftPress]
    all_goals simp [Toggler.on_event, leftPress]
  · simp [Toggler.on_event, leftPress]
  · simp [Toggler.on_event, leftPress]
  · simp [Toggler.on_event, leftPress]

/-- C7: event dispatch mutates only the message queue — for every event,
layout bounds and cursor, `Radio::on_event` and `Toggler::on_event` return
the widget with every field unchanged, and the new queue is the old queue
with zero or more elements appended (existing elements and order kept). -/
theorem dispatch_mutates_only_queue (M : Type) (r : Radio M) (t : Toggler M)
    (e : Event) (b : Rectangle) (c : Point) (msgs : List M) :
    ((r.on_event e b c msgs).1 = r ∧
      ∃ tail, (r.on_event e b c msgs).2.1 = msgs ++ tail) ∧
    ((t.on_event e b c msgs).1 = t ∧
      ∃ tail, (t.on_event e b c msgs).2.1 = msgs ++ tail) := by
  constructor
  · rcases radio_on_event_shape r e b c msgs with h | h
    · exact ⟨by rw [h], [r.on_click], by rw [h]⟩
    · exact ⟨by rw [h], [], by rw [h]; simp⟩
  · rcases toggler_on_event_shape t e b c msgs with h | h
    · exact ⟨by rw [h], [t.on_toggle (!t.is_active)], by rw [h]⟩
    · exact ⟨by rw [h], [], by rw [h]; simp⟩

/-- C9: `Radio::new` binds the callback at construction — the stored
`on_click` is `f value`; `is_selected` holds iff `selected = some value`;
and every captured click appends exactly that precomputed message (the
constructed widget no longer holds `f`, so `f` is never re-invoked). -/
theorem radio_new_binds_once (M V : Type) [DecidableEq V] (value : V)
    (label : String) (selected : Option V) (f : V → M) (b : Rectangle)
    (c : Point) (msgs : List M) (h : b.contains c = true) :
    (Radio.new value label selected f).on_click = f value ∧
    ((Radio.new value label selected f).is_selected = true ↔
      selected = some value) ∧
    (Radio.new value label selected f).on_event leftPress b c msgs =
      (Radio.new value label selected f, msgs ++ [f value], Status.captured) := by
  refine ⟨rfl, ?_, ?_⟩
  · simp [Radio.new, eq_comm]
  · simp [Radio.on_event, leftPress, h, Radio.new]

/-- Witness for C9 at a concrete input. -/
theorem radio_new_binds_once_witness :
    Rectangle.contains ⟨0, 0, 28, 28⟩ ⟨10, 10⟩ = true ∧
    ((Radio.new true "choice" (some true) (fun _ : Bool => (7 : ℕ))).on_click = 7 ∧
      ((Radio.new true "choice" (some true) (fun _ : Bool => (7 : ℕ))).is_selected = true ↔
        (some true : Option Bool) = some true) ∧
      (Radio.new true "choice" (some true) (fun _ : Bool => (7 : ℕ))).on_event
          leftPress ⟨0, 0, 28, 28⟩ ⟨10, 10⟩ [] =
        (Radio.new true "choice" (some true) (fun _ : Bool => (7 : ℕ)),
          [7], Status.captured)) :=
  ⟨by norm_num [Rectangle.contains],
    radio_new_binds_once ℕ Bool true "choice" (some true) (fun _ => (7 : ℕ))
      ⟨0, 0, 28, 28⟩ ⟨10, 10⟩ [] (by norm_num [Rectangle.contains])⟩

/-- C10: when a Toggler with `is_active = b` captures a left-button press,
the single appended message is `on_toggle (!b)` — the callback receives
the negated state — and the widget itself is returned unchanged. -/
theorem toggler_message_negates_state (M : Type) (t : Toggler M)
    (b : Rectangle) (c : Point) (msgs : List M) (h : b.contains c = true) :
    t.on_event leftPress b c msgs =
      (t, msgs ++ [t.on_toggle (!t.is_active)], Status.captured) := by
  simp [Toggler.on_event, leftPress, h]

/-- Witness for C10 at a concrete input. -/
theorem toggler_message_negates_state_witness :
    Rectangle.contains ⟨0, 0, 40, 20⟩ ⟨5, 5⟩ = true ∧
    (Toggler.new false (some "power") (fun s => s)).on_event leftPress
        ⟨0, 0, 40, 20⟩ ⟨5, 5⟩ [] =
      (Toggler.new false (some "power") (fun s => s), [true], Status.captured) :=
  ⟨by norm_num [Rectangle.contains],
    toggler_message_negates_state Bool (Toggler.new false (some "power") (fun s => s))
      ⟨0, 0, 40, 20⟩ ⟨5, 5⟩ [] (by norm_num [Rectangle.contains])⟩

/-! ## Primitive (src/graphics/src/primitive.rs) -/

/-- A fill (`iced_core::Background`, a one-variant enum wrapping a color;
not under `src/`). -/
inductive Background where
  | color (c : Color)
deriving DecidableEq, Repr

/-- An image handle (`iced_native::image::Handle`), opaque outside `src/`;
the conversion moves it verbatim. -/
abbrev ImageHandle := Nat

/-- An SVG handle (`iced_native::svg::Handle`), opaque outside `src/`. -/
abbrev SvgHandle := Nat

/-- Mesh vertex/index buffers (`triangle::Mesh2D`), opaque outside
`src/`; the conversion moves them verbatim. -/
abbrev Mesh2DBuffers := Nat

/-- A rendering primitive (primitive.rs:21-113), parameterized by the
backend's custom-render payload type `C` (`B::CustomRenderPrimitive`);
`C = Unit` gives the backend-erased `Primitive<()>` (primitive.rs:121-123).
`Cached` holds its shared subtree directly: the `Arc` indirection carries
no information for conversion, which clones the subtree. -/
inductive Primitive (C : Type) where
  | none
  | group (primitives : List (Primitive C))
  | text (content : String) (bounds : Rectangle) (color : Color) (size : ℚ)
      (font : Font) (horizontal_alignment : Horizontal)
      (vertical_alignment : Vertical)
  | quad (bounds : Rectangle) (background : Background) (border_radius : ℚ)
      (border_width : ℚ) (border_color : Color)
  | image (handle : ImageHandle) (bounds : Rectangle)
  | svg (handle : SvgHandle) (bounds : Rectangle)
  | clip (bounds : Rectangle) (offset : Vec Nat) (content : Primitive C)
  | translate (translation : Vec ℚ) (content : Primitive C)
  | mesh2d (buffers : Mesh2DBuffers) (size : Size)
  | cached (cache : Primitive C)
  | custom (payload : C)

mutual

/-- `From<Primitive<()>> for Primitive<B>` (primitive.rs:125-195): every
shared variant is rebuilt with identical fields; a `Custom` node hits
`unreachable!` (primitive.rs:190-192) — modelled as `Option.none`, the
fatal, unrecoverable panic. -/
def convert (C : Type) : Primitive Unit → Option (Primitive C)
  | Primitive.none => some Primitive.none
  | Primitive.group ps => (convertList C ps).map fun qs => Primitive.group qs
  | Primitive.text c b col s f ha va =>
    some (Primitive.text c b col s f ha va)
  | Primitive.quad b bg br bw bc => some (Primitive.quad b bg br bw bc)
  | Primitive.image h b => some (Primitive.image h b)
  | Primitive.svg h b => some (Primitive.svg h b)
  | Primitive.clip b o c => (convert C c).map fun q => Primitive.clip b o q
  | Primitive.translate t c =>
    (convert C c).map fun q => Primitive.translate t q
  | Primitive.mesh2d bu s => some (Primitive.mesh2d bu s)
  | Primitive.cached c => (convert C c).map fun q => Primitive.cached q
  | Primitive.custom _ => Option.none

/-- The `Vec` conversion inside `Group`
(`primitives.into_iter().map(From::from).collect()`, primitive.rs:130):
order-preserving; the first panic aborts the whole conversion. -/
def convertList (C : Type) :
    List (Primitive Unit) → Option (List (Primitive C))
  | [] => some []
  | p :: ps =>
    match convert C p, convertList C ps with
    | some q, some qs => some (q :: qs)
    | _, _ => Option.none

end

mutual

/-- Whether a tree contains a `Custom` node anywhere, including inside
`Cached` subtrees. -/
def hasCustom {C : Type} : Primitive C → Bool
  | Primitive.none => false
  | Primitive.group ps => hasCustomList ps
  | Primitive.text _ _ _ _ _ _ _ => false
  | Primitive.quad _ _ _ _ _ => false
  | Primitive.image _ _ => false
  | Primitive.svg _ _ => false
  | Primitive.clip _ _ c => hasCustom c
  | Primitive.translate _ c => hasCustom c
  | Primitive.mesh2d _ _ => false
  | Primitive.cached c => hasCustom c
  | Primitive.custom _ => true

/-- Whether any tree of a list contains a `Custom` node. -/
def hasCustomList {C : Type} : List (Primitive C) → Bool
  | [] => false
  | p :: ps => hasCustom p || hasCustomList ps

end

mutual

/-- Modelled from the spec: the reverse (backend-typed → backend-erased)
conversion direction is not under `src/`; §4.4 of the spec: "the generic
scene-graph conversion path must reject/unreachable on encountering a
custom payload when converting between backend-typed and backend-erased
primitive trees (conversion is only valid when no custom payloads are
present)". Every shared variant is rebuilt with identical fields; a
custom payload is rejected. -/
def erase (C : Type) : Primitive C → Option (Primitive Unit)
  | Primitive.none => some Primitive.none
  | Primitive.group ps => (eraseList C ps).map fun qs => Primitive.group qs
  | Primitive.text c b col s f ha va =>
    some (Primitive.text c b col s f ha va)
  | Primitive.quad b bg br bw bc => some (Primitive.quad b bg br bw bc)
  | Primitive.image h b => some (Primitive.image h b)
  | Primitive.svg h b => some (Primitive.svg h b)
  | Primitive.clip b o c => (erase C c).map fun q => Primitive.clip b o q
  | Primitive.translate t c =>
    (erase C c).map fun q => Primitive.translate t q
  | Primitive.mesh2d bu s => some (Primitive.mesh2d bu s)
  | Primitive.cached c => (erase C c).map fun q => Primitive.cached q
  | Primitive.custom _ => Option.none

/-- List version of `erase`, order-preserving. -/
def eraseList (C : Type) : List (Primitive C) → Option (List (Primitive Unit))
  | [] => some []
  | p :: ps =>
    match erase C p, eraseList C ps with
    | some q, some qs => some (q :: qs)
    | _, _ => Option.none

end

mutual

/-- The conversion panics exactly on trees containing a `Custom` node. -/
theorem convert_none_iff (C : Type) : ∀ p : Primitive Unit,
    (convert C p = Option.none ↔ hasCustom p = true)
  | Primitive.none => by simp [convert, hasCustom]
  | Primitive.group ps => by
    have ih := convertList_none_iff C ps
    cases hc : convertList C ps with
    | none => simp [convert, hasCustom, hc, ← ih]
    | some qs => simp [convert, hasCustom, hc, ← ih]
  | Primitive.text c b col s f ha va => by simp [convert, hasCustom]
  | Primitive.quad b bg br bw bc => by simp [convert, hasCustom]
  | Primitive.image h b => by simp [convert, hasCustom]
  | Primitive.svg h b => by simp [convert, hasCustom]
  | Primitive.clip b o c => by
    have ih := convert_none_iff C c
    cases hc : convert C c with
    | none => simp [convert, hasCustom, hc, ← ih]
    | some q => simp [convert, hasCustom, hc, ← ih]
  | Primitive.translate t c => by
    have ih := convert_none_iff C c
    cases hc : convert C c with
    | none => simp [convert, hasCustom, hc, ← ih]
    | some q => simp [convert, hasCustom, hc, ← ih]
  | Primitive.mesh2d bu s => by simp [convert, hasCustom]
  | Primitive.cached c => by
    have ih := convert_none_iff C c
    cases hc : convert C c with
    | none => simp [convert, hasCustom, hc, ← ih]
    | some q => simp [convert, hasCustom, hc, ← ih]
  | Primitive.custom u => by simp [convert, hasCustom]

/-- List version: the group conversion panics exactly when some element
contains a `Custom` node. -/
theorem convertList_none_iff (C : Type) : ∀ ps : List (Primitive Unit),
    (convertList C ps = Option.none ↔ hasCustomList ps = true)
  | [] => by simp [convertList, hasCustomList]
  | p :: ps => by
    have ih1 := convert_none_iff C p
    have ih2 := convertList_none_iff C ps
    cases hc1 : convert C p with
    | none => simp [convertList, hasCustomList, hc1, ← ih1, ← ih2]
    | some q =>
      cases hc2 : convertList C ps with
      | none => simp [convertList, hasCustomList, hc1, hc2, ← ih1, ← ih2]
      | some qs => simp [convertList, hasCustomList, hc1, hc2, ← ih1, ← ih2]

end

mutual

/-- On custom-free trees the conversion succeeds and is inverted by the
erasure, field for field. -/
theorem convert_erase (C : Type) : ∀ p : Primitive Unit,
    hasCustom p = false →
    ∃ q : Primitive C, convert C p = some q ∧ erase C q = some p
  | Primitive.none, _ => ⟨Primitive.none, by simp [convert], by simp [erase]⟩
  | Primitive.group ps, h => by
    have h' : hasCustomList ps = false := by simpa [hasCustom] using h
    obtain ⟨qs, h1, h2⟩ := convertList_erase C ps h'
    exact ⟨Primitive.group qs, by simp [convert, h1], by simp [erase, h2]⟩
  | Primitive.text c b col s f ha va, _ =>
    ⟨Primitive.text c b col s f ha va, by simp [convert], by simp [erase]⟩
  | Primitive.quad b bg br bw bc, _ =>
    ⟨Primitive.quad b bg br bw bc, by simp [convert], by simp [erase]⟩
  | Primitive.image hd b, _ =>
    ⟨Primitive.image hd b, by simp [convert], by simp [erase]⟩
  | Primitive.svg hd b, _ =>
    ⟨Primitive.svg hd b, by simp [convert], by simp [erase]⟩
  | Primitive.clip b o c, h => by
    have h' : hasCustom c = false := by simpa [hasCustom] using h
    obtain ⟨q, h1, h2⟩ := convert_erase C c h'
    exact ⟨Primitive.clip b o q, by simp [convert, h1], by simp [erase, h2]⟩
  | Primitive.translate t c, h => by
    have h' : hasCustom c = false := by simpa [hasCustom] using h
    obtain ⟨q, h1, h2⟩ := convert_erase C c h'
    exact ⟨Primitive.translate t q, by simp [convert, h1],
      by simp [erase, h2]⟩
  | Primitive.mesh2d bu s, _ =>
    ⟨Primitive.mesh2d bu s, by simp [convert], by simp [erase]⟩
  | Primitive.cached c, h => by
    have h' : hasCustom c = false := by simpa [hasCustom] using h
    obtain ⟨q, h1, h2⟩ := convert_erase C c h'
    exact ⟨Primitive.cached q, by simp [convert, h1], by simp [erase, h2]⟩
  | Primitive.custom u, h => by simp [hasCustom] at h

/-- List version of `convert_erase`: element order is preserved. -/
theorem convertList_erase (C : Type) : ∀ ps : List (Primitive Unit),
    hasCustomList ps = false →
    ∃ qs : List (Primitive C),
      convertList C ps = some qs ∧ eraseList C qs = some ps
  | [], _ => ⟨[], by simp [convertList], by simp [eraseList]⟩
  | p :: ps, h => by
    have h1 : hasCustom p = false := by
      simp [hasCustomList] at h
      exact h.1
    have h2 : hasCustomList ps = false := by
      simp [hasCustomList] at h
      exact h.2
    obtain ⟨q, hq1, hq2⟩ := convert_erase C p h1
    obtain ⟨qs, hqs1, hqs2⟩ := convertList_erase C ps h2
    exact ⟨q :: qs, by simp [convertList, hq1, hqs1],
      by simp [eraseList, hq2, hqs2]⟩

end

/-- C1: converting a backend-erased tree `Primitive<()>` into a
backend-typed `Primitive<B>` fails fatally (the `unreachable!`, modelled
as `Option.none`) iff the tree contains a `Custom` node anywhere; for
every tree containing no `Custom` node the conversion succeeds. -/
theorem primitive_convert_fails_iff_custom (C : Type) (p : Primitive Unit) :
    (convert C p = Option.none ↔ hasCustom p = true) ∧
    (hasCustom p = false → (convert C p).isSome = true) := by
  refine ⟨convert_none_iff C p, fun h => ?_⟩
  rcases convert_erase C p h with ⟨q, h1, _⟩
  simp [h1]

/-- Witness for C1: a tree with a `Custom` node makes the conversion
panic; a custom-free tree converts successfully. -/
theorem primitive_convert_fails_iff_custom_witness :
    convert Nat (Primitive.group [Primitive.none, Primitive.custom ()]) =
      Option.none ∧
    (convert Nat (Primitive.cached (Primitive.mesh2d 3 ⟨2, 2⟩))).isSome =
      true :=
  ⟨(primitive_convert_fails_iff_custom Nat
        (Primitive.group [Primitive.none, Primitive.custom ()])).1.mpr
      (by simp [hasCustom, hasCustomList]),
    (primitive_convert_fails_iff_custom Nat
        (Primitive.cached (Primitive.mesh2d 3 ⟨2, 2⟩))).2
      (by simp [hasCustom])⟩

/-- A custom-free tree exercising every other variant, nesting, and group
order. -/
def demoTree : Primitive Unit :=
  Primitive.group
    [Primitive.quad ⟨0, 0, 1, 1⟩ (Background.color Color.black) 0 0
        Color.black,
      Primitive.clip ⟨0, 0, 2, 2⟩ ⟨1, 2⟩
        (Primitive.translate ⟨3, 4⟩
          (Primitive.cached
            (Primitive.text "x" ⟨0, 0, 1, 1⟩ Color.black 16 0
              Horizontal.left Vertical.top))),
      Primitive.svg 7 ⟨0, 0, 3, 3⟩,
      Primitive.image 9 ⟨1, 1, 2, 2⟩,
      Primitive.mesh2d 3 ⟨2, 2⟩,
      Primitive.none]

/-- C2: for every tree with no `Custom` node anywhere (including inside
`Cached` subtrees) the conversion between the backend-erased and the
backend-typed representation is lossless: it succeeds, and erasing the
backend-typed result gives back an equal tree — same variants, identical
fields, group order and nesting preserved. -/
theorem primitive_conversion_lossless (C : Type) (p : Primitive Unit)
    (h : hasCustom p = false) :
    ∃ q : Primitive C, convert C p = some q ∧ erase C q = some p :=
  convert_erase C p h

/-- Witness for C2 on a concrete custom-free tree using every other
variant. -/
theorem primitive_conversion_lossless_witness :
    hasCustom demoTree = false ∧
    ∃ q : Primitive Nat,
      convert Nat demoTree = some q ∧ erase Nat q = some demoTree :=
  ⟨by simp [demoTree, hasCustom, hasCustomList],
    primitive_conversion_lossless Nat demoTree
      (by simp [demoTree, hasCustom, hasCustomList])⟩

end Iced
